import Mathlib

/-!
Verification of the composite-wall heat-flow calculator
(`heat_flow_calc.py`, `material_r_values.py`).

The embedding models the core logic of the program over exact rationals:

* the mutable global `layers` list becomes an explicit `List Layer` threaded
  through each operation;
* a Tk entry widget's content, after `float(...)` parsing, becomes a
  `TypedField` (empty / non-numeric / parsed value);
* Python's `ZeroDivisionError` (which is *not* caught by the
  `except ValueError` handler in `calculate_heat_transfer`) is modelled with
  `Except Unit`, while the caught `ValueError` path is a distinct outcome.
-/

namespace HeatFlow

/-- Result of reading a Tk entry and applying `float(text.strip())`:
the text may be empty, non-empty but unparseable (raising `ValueError`),
or parse to a numeric value. -/
inductive TypedField where
  | empty : TypedField
  | invalid : TypedField
  | value : ℚ → TypedField
deriving DecidableEq

/-- One parallel path, as stored in a layer dict:
`{'r_value': ..., 'area_percent': ..., 'material': ...}`. -/
structure Path where
  r_value : ℚ
  area_percent : ℚ
  material : String
deriving DecidableEq

/-- A layer dict: `{'type': 'series', 'r_value': r, 'material': m}` or
`{'type': 'parallel', 'paths': ps}`. -/
inductive Layer where
  | series : ℚ → String → Layer
  | parallel : List Path → Layer
deriving DecidableEq

/-- The material label recorded when the user typed a raw number. -/
def customLabel : String := "Custom R-value"

/-- The sentinel combobox entry meaning no material is selected. -/
def noneLabel : String := "None"

/-- The dictionary from `material_r_values.py`, in insertion order. -/
def materials_r_values : List (String × ℚ) :=
  [("1/2-inch Drywall (R=0.45)", 0.45),
   ("5/8-inch Drywall (R=0.56)", 0.56),
   ("1/2-inch Plywood (R=0.63)", 0.63),
   ("3/4-inch Plywood (R=0.94)", 0.94),
   ("1/2-inch OSB (R=0.50)", 0.50),
   ("3/4-inch Solid Wood (Pine) (R=0.81)", 0.81),
   ("1-inch Solid Wood (Pine) (R=1.25)", 1.25),
   ("1/2-inch Cement Board (R=0.20)", 0.20),
   ("8-inch Concrete Block (unfilled) (R=1.11)", 1.11),
   ("8-inch Concrete Block (foam filled) (R=2.00)", 2.00),
   ("8-inch Reinforced Concrete (R=1.20)", 1.20),
   ("3.5-inch Fiberglass Batt (R=13.00)", 13.00),
   ("6-inch Fiberglass Batt (R=19.00)", 19.00),
   ("8-inch Fiberglass Batt (R=25.00)", 25.00),
   ("8-inch Cellulose (Loose-Fill) (R=24.00)", 24.00),
   ("1-inch Extruded Polystyrene (XPS) (R=5.00)", 5.00),
   ("2-inch Extruded Polystyrene (XPS) (R=10.00)", 10.00),
   ("1-inch Expanded Polystyrene (EPS) (R=4.00)", 4.00),
   ("2-inch Expanded Polystyrene (EPS) (R=8.00)", 8.00),
   ("1-inch Polyiso Foam Board (R=6.50)", 6.50),
   ("2-inch Polyiso Foam Board (R=13.00)", 13.00)]

/-- Python dict lookup: `s in d` / `d[s]` combined into an option. -/
def dictGet : List (String × ℚ) → String → Option ℚ
  | [], _ => none
  | (k, v) :: rest, s => if k = s then some v else dictGet rest s

/-- The five boundary entry widgets after `float(...)`:
`none` means the parse raised `ValueError`. -/
structure Boundary where
  t_inside : Option ℚ
  t_outside : Option ℚ
  r_inside_film : Option ℚ
  r_outside_film : Option ℚ
  wall_area : Option ℚ
deriving DecidableEq

/-- The four quantities computed and displayed by `calculate_heat_transfer`. -/
structure HeatResult where
  total_resistance : ℚ
  u_value : ℚ
  q_per_ft2 : ℚ
  q_total : ℚ
deriving DecidableEq

/-- The inner loop of lines 43-46: accumulate
`(path['area_percent'] / 100) / path['r_value']` over the paths; a zero
`r_value` would raise `ZeroDivisionError`, modelled as `Except.error`. -/
def parallel_conductance : List Path → ℚ → Except Unit ℚ
  | [], acc => Except.ok acc
  | p :: rest, acc =>
      if p.r_value = 0 then Except.error ()
      else parallel_conductance rest (acc + (p.area_percent / 100) / p.r_value)

/-- The loop of lines 37-47: starting from the film sum, add each series
layer's `r_value`, and for each parallel layer add
`1 / parallel_resistance`; a zero divisor raises `ZeroDivisionError`. -/
def total_resistance_loop : List Layer → ℚ → Except Unit ℚ
  | [], acc => Except.ok acc
  | Layer.series r _ :: rest, acc => total_resistance_loop rest (acc + r)
  | Layer.parallel ps :: rest, acc =>
      match parallel_conductance ps 0 with
      | Except.error _ => Except.error ()
      | Except.ok c =>
          if c = 0 then Except.error ()
          else total_resistance_loop rest (acc + 1 / c)

/-- Outcome of one call to `calculate_heat_transfer`: results displayed,
the caught `ValueError` message displayed, or an uncaught
`ZeroDivisionError` propagating out of the function (the `except` clause
at line 61 catches only `ValueError`). -/
inductive CalcOutcome where
  | ok : HeatResult → CalcOutcome
  | displayedError : String → CalcOutcome
  | uncaughtZeroDivision : CalcOutcome
deriving DecidableEq

/-- Function `calculate_heat_transfer` (lines 24-62): parse the five boundary
fields (any failure is caught and displays the message), accumulate the
total resistance over `layers`, then compute flux per area, total flow
and U-value.  The division `(t_outside - t_inside) / total_resistance`
raises an uncaught `ZeroDivisionError` when the total resistance is 0. -/
def calculate_heat_transfer (b : Boundary) (layers : List Layer) : CalcOutcome :=
  match b.t_inside, b.t_outside, b.r_inside_film, b.r_outside_film, b.wall_area with
  | some t_inside, some t_outside, some r_inside_film, some r_outside_film, some wall_area =>
      match total_resistance_loop layers (r_inside_film + r_outside_film) with
      | Except.error _ => CalcOutcome.uncaughtZeroDivision
      | Except.ok total_resistance =>
          if total_resistance = 0 then CalcOutcome.uncaughtZeroDivision
          else
            CalcOutcome.ok
              { total_resistance := total_resistance
                u_value := 1 / total_resistance
                q_per_ft2 := (t_outside - t_inside) / total_resistance
                q_total := (t_outside - t_inside) / total_resistance * wall_area }
  | _, _, _, _, _ => CalcOutcome.displayedError ("Please enter valid numeric values.")

/-- Outcome of `add_series_layer` (lines 102-141): one of the two error
dialogs, or a layer appended with the resolved value and label. -/
inductive SeriesOutcome where
  | rValueError : SeriesOutcome
  | sourceError : SeriesOutcome
  | added : ℚ → String → SeriesOutcome
deriving DecidableEq

/-- Function `add_series_layer` (lines 102-131), up to the point where the layer is
appended: if the typed text is non-empty it is used exclusively (the
combobox selection is never consulted); a parse failure or a non-positive
value shows "Please enter a positive numeric R-value."; with empty typed
text, a selection other than `"None"` that is in the dictionary is used,
and anything else shows "Please type an R-value or select a material.". -/
def add_series_layer (typed : TypedField) (selected_mat : String) : SeriesOutcome :=
  match typed with
  | TypedField.value val =>
      if val ≤ 0 then SeriesOutcome.rValueError
      else SeriesOutcome.added val customLabel
  | TypedField.invalid => SeriesOutcome.rValueError
  | TypedField.empty =>
      if selected_mat ≠ noneLabel then
        match dictGet materials_r_values selected_mat with
        | some r_value => SeriesOutcome.added r_value selected_mat
        | none => SeriesOutcome.sourceError
      else SeriesOutcome.sourceError

/-- The effect of `add_series_layer` on the global `layers` list
(line 131 appends; every error path returns before it). -/
def add_series_layer_state (typed : TypedField) (selected_mat : String)
    (layers : List Layer) : List Layer :=
  match add_series_layer typed selected_mat with
  | SeriesOutcome.added r_value material => layers ++ [Layer.series r_value material]
  | _ => layers

/-- The error dialogs a parallel-path `on_ok` handler can show
(lines 258-302), each carrying the data interpolated into its message. -/
inductive PathError where
  | rValueError : PathError
  | sourceError : PathError
  | areaPositiveError : PathError
  | areaExceedsError : ℚ → PathError
  | lastAreaError : ℚ → PathError
deriving DecidableEq

/-- What the user entered in one parallel-path dialog: the typed R-value
entry, the material combobox, and the area-percent entry. -/
structure PathSubmission where
  typed_r : TypedField
  sel_mat : String
  area : TypedField
deriving DecidableEq

/-- Lines 262-277 of `on_ok`: resolve the R-value source.  Non-empty typed
text is used exclusively; empty typed text falls back to the combobox. -/
def resolve_r (typed_r : TypedField) (sel_mat : String) : Except PathError (ℚ × String) :=
  match typed_r with
  | TypedField.value rv =>
      if rv ≤ 0 then Except.error PathError.rValueError
      else Except.ok (rv, customLabel)
  | TypedField.invalid => Except.error PathError.rValueError
  | TypedField.empty =>
      if sel_mat ≠ noneLabel then
        match dictGet materials_r_values sel_mat with
        | some rv => Except.ok (rv, sel_mat)
        | none => Except.error PathError.sourceError
      else Except.error PathError.sourceError

/-- The `on_ok` validation of one parallel-path dialog (lines 258-307),
with `area_left = 100 - area_used_so_far`: after the R-value source
resolves, the area must parse positive; a non-last path must not exceed
`area_left`, and the last path must match `area_left` within `1e-6`;
otherwise the dialog reports `area_left` back in its error message. -/
def on_ok (sub : PathSubmission) (area_used_so_far : ℚ) (last_path : Bool) :
    Except PathError Path :=
  match resolve_r sub.typed_r sub.sel_mat with
  | Except.error e => Except.error e
  | Except.ok (rv, material_name) =>
      match sub.area with
      | TypedField.value a_val =>
          if a_val ≤ 0 then Except.error PathError.areaPositiveError
          else if last_path = false then
            if a_val > 100 - area_used_so_far then
              Except.error (PathError.areaExceedsError (100 - area_used_so_far))
            else Except.ok { r_value := rv, area_percent := a_val, material := material_name }
          else
            if |a_val - (100 - area_used_so_far)| > 1 / 1000000 then
              Except.error (PathError.lastAreaError (100 - area_used_so_far))
            else Except.ok { r_value := rv, area_percent := a_val, material := material_name }
      | _ => Except.error PathError.areaPositiveError

/-- The wizard loop of `add_parallel_layer` (lines 165-174): one submission
per path, `last_path` exactly on the final one (`i == num_paths - 1`),
accumulating `total_area_used`.  Returns the built path list and the
total area used, or the first validation error. -/
def collect_paths : List PathSubmission → ℚ → Except PathError (List Path × ℚ)
  | [], total_area_used => Except.ok ([], total_area_used)
  | sub :: rest, total_area_used =>
      match on_ok sub total_area_used rest.isEmpty with
      | Except.error e => Except.error e
      | Except.ok p =>
          match collect_paths rest (total_area_used + p.area_percent) with
          | Except.error e => Except.error e
          | Except.ok (ps, total) => Except.ok (p :: ps, total)

/-- Outcome of `add_parallel_layer` (lines 147-185). -/
inductive ParallelOutcome where
  | pathError : PathError → ParallelOutcome
  | areaSumError : ℚ → ParallelOutcome
  | committed : List Path → ParallelOutcome
deriving DecidableEq

/-- Whether a `ParallelOutcome` committed a layer. -/
def ParallelOutcome.isCommitted : ParallelOutcome → Bool
  | ParallelOutcome.committed _ => true
  | _ => false

/-- Function `add_parallel_layer` (lines 147-185) acting on the `layers` list: run
the wizard over the submissions (one per path), re-check
`abs(total_area_used - 100) > 1e-6`, and only then append the parallel
layer (line 181).  Every error path leaves `layers` untouched. -/
def add_parallel_layer (subs : List PathSubmission) (layers : List Layer) :
    ParallelOutcome × List Layer :=
  match collect_paths subs 0 with
  | Except.error e => (ParallelOutcome.pathError e, layers)
  | Except.ok (paths, total_area_used) =>
      if |total_area_used - 100| > 1 / 1000000 then
        (ParallelOutcome.areaSumError total_area_used, layers)
      else
        (ParallelOutcome.committed paths, layers ++ [Layer.parallel paths])

/-- Function `delete_last_layer` (lines 319-326): pop the last layer if any; on an
empty list, show the "No layers to delete." info box (`false`) and leave
the list alone. -/
def delete_last_layer (layers : List Layer) : List Layer × Bool :=
  match layers with
  | [] => ([], false)
  | _ => (layers.dropLast, true)

/-- Function `confirm_delete_layer` (lines 328-334) with the user's yes/no answer:
`del layers[index]` follows Python semantics — a negative index counts
from the end, and an index out of range raises an uncaught `IndexError`
(modelled as `Except.error`), with no existence check beforehand. -/
def confirm_delete_layer (index : ℤ) (response : Bool) (layers : List Layer) :
    Except Unit (List Layer) :=
  if response then
    if 0 ≤ index ∧ index < (layers.length : ℤ) then
      Except.ok (layers.eraseIdx index.toNat)
    else if -(layers.length : ℤ) ≤ index ∧ index < 0 then
      Except.ok (layers.eraseIdx (index + (layers.length : ℤ)).toNat)
    else Except.error ()
  else Except.ok layers

/-- The reachable states of the global `layers` list: empty at startup
(line 430), then mutated only by the four event handlers. -/
inductive Reachable : List Layer → Prop where
  | init : Reachable []
  | addSeries (typed : TypedField) (sel : String) (layers : List Layer) :
      Reachable layers → Reachable (add_series_layer_state typed sel layers)
  | addParallel (subs : List PathSubmission) (layers : List Layer) :
      Reachable layers → Reachable (add_parallel_layer subs layers).2
  | deleteLast (layers : List Layer) :
      Reachable layers → Reachable (delete_last_layer layers).1
  | confirmDelete (index : ℤ) (response : Bool) (layers layers2 : List Layer) :
      Reachable layers → confirm_delete_layer index response layers = Except.ok layers2 →
      Reachable layers2

/-- The conductance contribution of one path, as a total function on ℚ:
`(area_percent / 100) / r_value`. -/
def pathCond (p : Path) : ℚ := p.area_percent / 100 / p.r_value

/-- The closed-form resistance contribution of one layer, following the
spec's words: a series layer contributes its `rValue`, a parallel layer
contributes `1 / (Σ_paths (areaPercent/100)/rValue)`. -/
def layerValue : Layer → ℚ
  | Layer.series r _ => r
  | Layer.parallel ps => 1 / (ps.map pathCond).sum

/-- Modelled from the spec (§4.1): `totalResistance(filmIn, filmOut,
layers)` as the closed-form sum `filmIn + filmOut + Σ layers`, to be
compared with the loop the code runs. -/
def spec_totalResistance (filmIn filmOut : ℚ) (layers : List Layer) : ℚ :=
  filmIn + filmOut + (layers.map layerValue).sum

/-- The conditions under which one layer's contribution divides by no
zero: every path has a nonzero `r_value` and, for a parallel layer, the
conductance sum is nonzero. -/
def layerOk : Layer → Prop
  | Layer.series _ _ => True
  | Layer.parallel ps => (∀ p ∈ ps, p.r_value ≠ 0) ∧ (ps.map pathCond).sum ≠ 0

theorem parallel_conductance_ok (ps : List Path) (acc : ℚ)
    (h : ∀ p ∈ ps, p.r_value ≠ 0) :
    parallel_conductance ps acc = Except.ok (acc + (ps.map pathCond).sum) := by
  induction ps generalizing acc with
  | nil => simp [parallel_conductance]
  | cons p rest ih =>
      have hp : p.r_value ≠ 0 := h p (List.mem_cons_self p rest)
      have hrest : ∀ q ∈ rest, q.r_value ≠ 0 := fun q hq => h q (List.mem_cons_of_mem p hq)
      simp only [parallel_conductance, if_neg hp, ih _ hrest, List.map_cons, List.sum_cons]
      rw [pathCond, add_assoc]

theorem parallel_conductance_err (ps : List Path) (acc : ℚ)
    (h : ¬ ∀ p ∈ ps, p.r_value ≠ 0) :
    parallel_conductance ps acc = Except.error () := by
  induction ps generalizing acc with
  | nil => exact absurd (by simp) h
  | cons p rest ih =>
      by_cases hp : p.r_value = 0
      · simp [parallel_conductance, hp]
      · have hrest : ¬ ∀ q ∈ rest, q.r_value ≠ 0 := by
          intro hall
          exact h (by
            intro q hq
            rcases List.mem_cons.mp hq with h1 | h2
            · exact h1 ▸ hp
            · exact hall q h2)
        simp [parallel_conductance, hp, ih _ hrest]

theorem total_resistance_loop_ok (layers : List Layer) (acc : ℚ)
    (h : ∀ l ∈ layers, layerOk l) :
    total_resistance_loop layers acc = Except.ok (acc + (layers.map layerValue).sum) := by
  induction layers generalizing acc with
  | nil => simp [total_resistance_loop]
  | cons l rest ih =>
      have hrest : ∀ m ∈ rest, layerOk m := fun m hm => h m (List.mem_cons_of_mem l hm)
      cases l with
      | series r mat =>
          simp only [total_resistance_loop, ih _ hrest, List.map_cons, List.sum_cons]
          rw [layerValue, add_assoc]
      | parallel ps =>
          have hl : layerOk (Layer.parallel ps) := h _ (List.mem_cons_self _ rest)
          rcases hl with ⟨hps, hsum⟩
          rw [total_resistance_loop, parallel_conductance_ok ps 0 hps]
          simp only [zero_add, if_neg hsum, ih _ hrest, List.map_cons, List.sum_cons]
          rw [layerValue, add_assoc]

theorem total_resistance_loop_err (layers : List Layer) (acc : ℚ)
    (h : ¬ ∀ l ∈ layers, layerOk l) :
    total_resistance_loop layers acc = Except.error () := by
  induction layers generalizing acc with
  | nil => exact absurd (by simp) h
  | cons l rest ih =>
      have hsplit : ¬ layerOk l ∨ ¬ ∀ m ∈ rest, layerOk m := by
        by_contra hc
        push_neg at hc
        exact h (by
          intro m hm
          rcases List.mem_cons.mp hm with h1 | h2
          · exact h1 ▸ hc.1
          · exact hc.2 m h2)
      cases l with
      | series r mat =>
          rcases hsplit with hbad | hrest
          · exact absurd trivial hbad
          · simp [total_resistance_loop, ih _ hrest]
      | parallel ps =>
          by_cases hps : ∀ p ∈ ps, p.r_value ≠ 0
          · rw [total_resistance_loop, parallel_conductance_ok ps 0 hps]
            by_cases hsum : (ps.map pathCond).sum = 0
            · simp [zero_add, hsum]
            · have hrest : ¬ ∀ m ∈ rest, layerOk m := by
                rcases hsplit with hbad | hr
                · exact absurd ⟨hps, hsum⟩ hbad
                · exact hr
              simp [zero_add, hsum, ih _ hrest]
          · rw [total_resistance_loop, parallel_conductance_err ps 0 hps]

theorem calculate_ok_elim (tIn tOut rif rof wa : ℚ) (layers : List Layer) (res : HeatResult)
    (h : calculate_heat_transfer ⟨some tIn, some tOut, some rif, some rof, some wa⟩ layers =
      CalcOutcome.ok res) :
    ∃ total, total_resistance_loop layers (rif + rof) = Except.ok total ∧ total ≠ 0 ∧
      res = ⟨total, 1 / total, (tOut - tIn) / total, (tOut - tIn) / total * wa⟩ := by
  cases hloop : total_resistance_loop layers (rif + rof) with
  | error e => simp [calculate_heat_transfer, hloop] at h
  | ok total =>
      by_cases h0 : total = 0
      · simp [calculate_heat_transfer, hloop, h0] at h
      · refine ⟨total, rfl, h0, ?_⟩
        simp [calculate_heat_transfer, hloop, h0] at h
        simp only [one_div]
        exact h.symm

theorem total_resistance_loop_perm (layers1 layers2 : List Layer)
    (h : layers1.Perm layers2) (acc : ℚ) :
    total_resistance_loop layers1 acc = total_resistance_loop layers2 acc := by
  by_cases hok : ∀ l ∈ layers1, layerOk l
  · have hok2 : ∀ l ∈ layers2, layerOk l := fun l hl => hok l (h.mem_iff.mpr hl)
    rw [total_resistance_loop_ok _ _ hok, total_resistance_loop_ok _ _ hok2,
      (h.map layerValue).sum_eq]
  · have hok2 : ¬ ∀ l ∈ layers2, layerOk l := fun hc => hok fun l hl => hc l (h.mem_iff.mp hl)
    rw [total_resistance_loop_err _ _ hok, total_resistance_loop_err _ _ hok2]

/-- Claim C1: for every assembly whose five boundary inputs parse as
numbers, a recompute that displays results reports a total resistance
equal to `filmIn + filmOut` plus, for each layer in order, the layer's
`rValue` if series or `1 / Σ_paths (areaPercent/100)/rValue` if
parallel — the spec's closed-form `totalResistance`. -/
theorem C1_total_resistance_formula (tIn tOut rif rof wa : ℚ) (layers : List Layer)
    (res : HeatResult)
    (h : calculate_heat_transfer ⟨some tIn, some tOut, some rif, some rof, some wa⟩ layers =
      CalcOutcome.ok res) :
    res.total_resistance = spec_totalResistance rif rof layers := by
  obtain ⟨total, hloop, h0, hres⟩ := calculate_ok_elim tIn tOut rif rof wa layers res h
  have hok : ∀ l ∈ layers, layerOk l := by
    by_contra hc
    rw [total_resistance_loop_err layers _ hc] at hloop
    exact Except.noConfusion hloop
  rw [total_resistance_loop_ok layers _ hok] at hloop
  have h1 := Except.ok.inj hloop
  rw [hres, spec_totalResistance]
  exact h1.symm

/-- Claim C1 witness: the spec's own scenario — films 0.68 and 0.17 plus
one series layer R = 13 give a displayed total resistance 13.85 that
matches the closed-form sum. -/
theorem C1_total_resistance_formula_applied :
    (HeatResult.mk (277 / 20) (20 / 277) (-1000 / 277) (-100000 / 277)).total_resistance =
      spec_totalResistance (0.68) (0.17) [Layer.series 13 customLabel] :=
  C1_total_resistance_formula 70 20 (0.68) (0.17) 100 [Layer.series 13 customLabel] _
    (by norm_num [calculate_heat_transfer, total_resistance_loop])

/-- Claim C2: whenever a recompute displays results, the displayed
quantities satisfy `uValue = 1 / rTotal`,
`fluxPerArea = (tOutside - tInside) / rTotal` (signed, outside minus
inside) and `totalFlow = fluxPerArea * area`. -/
theorem C2_derived_outputs (tIn tOut rif rof wa : ℚ) (layers : List Layer)
    (res : HeatResult)
    (h : calculate_heat_transfer ⟨some tIn, some tOut, some rif, some rof, some wa⟩ layers =
      CalcOutcome.ok res) :
    res.u_value = 1 / res.total_resistance ∧
    res.q_per_ft2 = (tOut - tIn) / res.total_resistance ∧
    res.q_total = res.q_per_ft2 * wa := by
  obtain ⟨total, _, _, hres⟩ := calculate_ok_elim tIn tOut rif rof wa layers res h
  rw [hres]
  exact ⟨rfl, rfl, rfl⟩

/-- Claim C2 witness: at tInside = 70, tOutside = 20, films 0.68/0.17,
area 100 over one series layer R = 13, the displayed outputs satisfy the
three relations. -/
theorem C2_derived_outputs_applied :
    (HeatResult.mk (277 / 20) (20 / 277) (-1000 / 277) (-100000 / 277)).u_value =
      1 / (HeatResult.mk (277 / 20) (20 / 277) (-1000 / 277) (-100000 / 277)).total_resistance ∧
    (HeatResult.mk (277 / 20) (20 / 277) (-1000 / 277) (-100000 / 277)).q_per_ft2 =
      (20 - 70) / (HeatResult.mk (277 / 20) (20 / 277) (-1000 / 277) (-100000 / 277)).total_resistance ∧
    (HeatResult.mk (277 / 20) (20 / 277) (-1000 / 277) (-100000 / 277)).q_total =
      (HeatResult.mk (277 / 20) (20 / 277) (-1000 / 277) (-100000 / 277)).q_per_ft2 * 100 :=
  C2_derived_outputs 70 20 (0.68) (0.17) 100 [Layer.series 13 customLabel] _
    (by norm_num [calculate_heat_transfer, total_resistance_loop])

/-- Claim C9: reordering the layer sequence never changes the outcome of
a recompute — series and parallel combination is commutative and
associative in the resulting total resistance. -/
theorem C9_perm_invariance (b : Boundary) (layers1 layers2 : List Layer)
    (h : layers1.Perm layers2) :
    calculate_heat_transfer b layers1 = calculate_heat_transfer b layers2 := by
  obtain ⟨tIn, tOut, rif, rof, wa⟩ := b
  cases tIn <;> cases tOut <;> cases rif <;> cases rof <;> cases wa
  all_goals simp only [calculate_heat_transfer]
  all_goals first
    | rfl
    | rw [total_resistance_loop_perm _ _ h]

/-- Claim C9 witness: swapping two series layers leaves the recompute
outcome unchanged. -/
theorem C9_perm_invariance_applied :
    calculate_heat_transfer ⟨some 70, some 20, some (0.68), some (0.17), some 100⟩
        [Layer.series 13 customLabel, Layer.series 2 customLabel] =
      calculate_heat_transfer ⟨some 70, some 20, some (0.68), some (0.17), some 100⟩
        [Layer.series 2 customLabel, Layer.series 13 customLabel] :=
  C9_perm_invariance _ _ _
    (List.Perm.swap (Layer.series 2 customLabel) (Layer.series 13 customLabel) [])

/-- Claim C3: parallel-layer construction is all-or-nothing — if any
path's validation or the final sum-to-100% check fails, the layer list is
returned unchanged, and the `ParallelLayer` is appended exactly when the
outcome is a commit, in which case the committed paths passed every check
including the final tolerance test. -/
theorem C3_parallel_commit_atomic (subs : List PathSubmission) (layers : List Layer) :
    ((add_parallel_layer subs layers).1.isCommitted = false →
      (add_parallel_layer subs layers).2 = layers) ∧
    (∀ ps, (add_parallel_layer subs layers).1 = ParallelOutcome.committed ps →
      (∃ total, collect_paths subs 0 = Except.ok (ps, total) ∧ |total - 100| ≤ 1 / 1000000) ∧
      (add_parallel_layer subs layers).2 = layers ++ [Layer.parallel ps]) := by
  cases hcp : collect_paths subs 0 with
  | error e => simp [add_parallel_layer, hcp, ParallelOutcome.isCommitted]
  | ok pt =>
      obtain ⟨paths, total⟩ := pt
      by_cases habs : |total - 100| > 1 / 1000000
      · simp only [add_parallel_layer, hcp]
        rw [if_pos habs]
        simp [ParallelOutcome.isCommitted]
      · simp only [add_parallel_layer, hcp]
        rw [if_neg habs]
        refine ⟨fun hfalse => ?_, fun ps hps => ?_⟩
        · simp [ParallelOutcome.isCommitted] at hfalse
        · have hpaths : paths = ps := ParallelOutcome.committed.inj hps
          subst hpaths
          exact ⟨⟨total, rfl, not_lt.mp habs⟩, rfl⟩

/-- Claim C3 witness: a two-path wizard whose last path (30%) does not
match the 50% left over leaves a one-layer assembly untouched. -/
theorem C3_parallel_commit_atomic_applied :
    (add_parallel_layer
        [⟨TypedField.value 13, noneLabel, TypedField.value 50⟩,
          ⟨TypedField.value 13, noneLabel, TypedField.value 30⟩]
        [Layer.series 1 customLabel]).2 = [Layer.series 1 customLabel] :=
  (C3_parallel_commit_atomic _ _).1
    (by norm_num [add_parallel_layer, collect_paths, on_ok, resolve_r,
      ParallelOutcome.isCommitted, abs_sub_lt_iff])

/-- Claim C4 counterexample: with both film resistances 0 and no layers
(all five inputs parsing), the recompute reaches the division
`(t_outside - t_inside) / total_resistance` with a zero divisor and
raises an uncaught `ZeroDivisionError` — it is not returned as a typed
rejection (the `except` clause catches only `ValueError`). -/
theorem C4_zero_resistance_counterexample :
    calculate_heat_transfer ⟨some 70, some 20, some 0, some 0, some 100⟩ [] =
      CalcOutcome.uncaughtZeroDivision := by
  norm_num [calculate_heat_transfer, total_resistance_loop]

/-- Claim C4 amended: an assembly whose total resistance evaluates to
zero makes the recompute raise an uncaught `ZeroDivisionError` rather
than reject with a typed error; only non-numeric input is caught (as
`ValueError`). -/
theorem C4_amended_uncaught_division (tIn tOut rif rof wa : ℚ) (layers : List Layer)
    (h : total_resistance_loop layers (rif + rof) = Except.ok 0) :
    calculate_heat_transfer ⟨some tIn, some tOut, some rif, some rof, some wa⟩ layers =
      CalcOutcome.uncaughtZeroDivision := by
  simp [calculate_heat_transfer, h]

/-- Claim C4 amended witness: the all-zero-films, no-layer assembly. -/
theorem C4_amended_uncaught_division_applied :
    calculate_heat_transfer ⟨some 70, some 20, some 0, some 0, some 100⟩ [] =
      CalcOutcome.uncaughtZeroDivision :=
  C4_amended_uncaught_division 70 20 0 0 100 []
    (by norm_num [total_resistance_loop])

/-- Claim C5 counterexample: with a typed R-value 2 present *and* a
material selected, `add_series_layer` does not reject — it appends a
layer built from the typed value (the selection is ignored). -/
theorem C5_both_sources_counterexample :
    add_series_layer (TypedField.value 2) ("1/2-inch Drywall (R=0.45)") =
      SeriesOutcome.added 2 customLabel ∧
    add_series_layer_state (TypedField.value 2) ("1/2-inch Drywall (R=0.45)") [] =
      [Layer.series 2 customLabel] := by
  constructor
  · norm_num [add_series_layer]
  · norm_num [add_series_layer_state, add_series_layer]

/-- Claim C5 amended: when both a positive typed R-value and a material
selection are present, the typed value silently takes precedence: the
series layer (and likewise any parallel-path validation) is built from
the typed value with the "Custom R-value" label, and the material
selection has no influence; no `AmbiguousSourceError` exists. -/
theorem C5_amended_typed_precedence (v : ℚ) (sel : String) (layers : List Layer)
    (hv : 0 < v) :
    add_series_layer (TypedField.value v) sel = SeriesOutcome.added v customLabel ∧
    add_series_layer_state (TypedField.value v) sel layers =
      layers ++ [Layer.series v customLabel] ∧
    (∀ a used last, on_ok ⟨TypedField.value v, sel, a⟩ used last =
      on_ok ⟨TypedField.value v, noneLabel, a⟩ used last) := by
  have hadd : add_series_layer (TypedField.value v) sel = SeriesOutcome.added v customLabel := by
    simp [add_series_layer, not_le.mpr hv]
  exact ⟨hadd, by simp [add_series_layer_state, hadd], fun a used last => rfl⟩

/-- Claim C5 amended witness: typed value 2 with a drywall selection
appends the custom layer. -/
theorem C5_amended_typed_precedence_applied :
    add_series_layer_state (TypedField.value 2) ("1/2-inch Drywall (R=0.45)") [] =
      [] ++ [Layer.series 2 customLabel] :=
  (C5_amended_typed_precedence 2 ("1/2-inch Drywall (R=0.45)") [] (by norm_num)).2.1

theorem materials_r_values_pos : ∀ p ∈ materials_r_values, 0 < p.2 := by
  intro p hp
  fin_cases hp <;> norm_num

theorem dictGet_pos (table : List (String × ℚ)) (s : String) (v : ℚ)
    (hpos : ∀ p ∈ table, 0 < p.2) (h : dictGet table s = some v) : 0 < v := by
  induction table with
  | nil => simp [dictGet] at h
  | cons kv rest ih =>
      obtain ⟨k, w⟩ := kv
      by_cases hk : k = s
      · rw [dictGet, if_pos hk] at h
        have hw : w = v := Option.some.inj h
        exact hw ▸ hpos (k, w) (List.mem_cons_self _ _)
      · rw [dictGet, if_neg hk] at h
        exact ih (fun p hp => hpos p (List.mem_cons_of_mem _ hp)) h

theorem resolve_r_pos (t : TypedField) (s : String) (rv : ℚ) (mat : String)
    (h : resolve_r t s = Except.ok (rv, mat)) : 0 < rv := by
  cases t with
  | invalid => simp [resolve_r] at h
  | value x =>
      simp only [resolve_r] at h
      by_cases hx : x ≤ 0
      · rw [if_pos hx] at h
        exact Except.noConfusion h
      · rw [if_neg hx] at h
        have hx2 : x = rv := congrArg Prod.fst (Except.ok.inj h)
        exact hx2 ▸ not_le.mp hx
  | empty =>
      simp only [resolve_r] at h
      by_cases hs : s ≠ noneLabel
      · rw [if_pos hs] at h
        cases hd : dictGet materials_r_values s with
        | none => rw [hd] at h; exact Except.noConfusion h
        | some w =>
            rw [hd] at h
            have hw : w = rv := congrArg Prod.fst (Except.ok.inj h)
            exact hw ▸ dictGet_pos _ _ _ materials_r_values_pos hd
      · rw [if_neg hs] at h
        exact Except.noConfusion h

theorem add_series_layer_pos (t : TypedField) (s : String) (r : ℚ) (m : String)
    (h : add_series_layer t s = SeriesOutcome.added r m) : 0 < r := by
  cases t with
  | invalid => simp [add_series_layer] at h
  | value x =>
      simp only [add_series_layer] at h
      by_cases hx : x ≤ 0
      · rw [if_pos hx] at h
        exact SeriesOutcome.noConfusion h
      · rw [if_neg hx] at h
        have hx2 : x = r := (SeriesOutcome.added.inj h).1
        exact hx2 ▸ not_le.mp hx
  | empty =>
      simp only [add_series_layer] at h
      by_cases hs : s ≠ noneLabel
      · rw [if_pos hs] at h
        cases hd : dictGet materials_r_values s with
        | none => rw [hd] at h; exact SeriesOutcome.noConfusion h
        | some w =>
            rw [hd] at h
            have hw : w = r := (SeriesOutcome.added.inj h).1
            exact hw ▸ dictGet_pos _ _ _ materials_r_values_pos hd
      · rw [if_neg hs] at h
        exact SeriesOutcome.noConfusion h

theorem on_ok_ok_elim (sub : PathSubmission) (used : ℚ) (last : Bool) (p : Path)
    (h : on_ok sub used last = Except.ok p) :
    resolve_r sub.typed_r sub.sel_mat = Except.ok (p.r_value, p.material) ∧
    sub.area = TypedField.value p.area_percent ∧ 0 < p.area_percent := by
  cases hr : resolve_r sub.typed_r sub.sel_mat with
  | error e => simp [on_ok, hr] at h
  | ok rm =>
      obtain ⟨rv, mat⟩ := rm
      simp only [on_ok, hr] at h
      cases ha : sub.area with
      | empty => rw [ha] at h; exact Except.noConfusion h
      | invalid => rw [ha] at h; exact Except.noConfusion h
      | value a =>
          rw [ha] at h
          dsimp only at h
          by_cases hva : a ≤ 0
          · rw [if_pos hva] at h
            exact Except.noConfusion h
          · rw [if_neg hva] at h
            cases last with
            | false =>
                rw [if_pos rfl] at h
                by_cases hex : a > 100 - used
                · rw [if_pos hex] at h
                  exact Except.noConfusion h
                · rw [if_neg hex] at h
                  have hp := Except.ok.inj h
                  subst hp
                  exact ⟨rfl, rfl, not_le.mp hva⟩
            | true =>
                rw [if_neg (by simp)] at h
                by_cases habs : |a - (100 - used)| > 1 / 1000000
                · rw [if_pos habs] at h
                  exact Except.noConfusion h
                · rw [if_neg habs] at h
                  have hp := Except.ok.inj h
                  subst hp
                  exact ⟨rfl, rfl, not_le.mp hva⟩

theorem on_ok_pos (sub : PathSubmission) (used : ℚ) (last : Bool) (p : Path)
    (h : on_ok sub used last = Except.ok p) : 0 < p.r_value :=
  resolve_r_pos _ _ _ _ (on_ok_ok_elim sub used last p h).1

theorem collect_paths_pos (subs : List PathSubmission) (acc : ℚ) (ps : List Path) (total : ℚ)
    (h : collect_paths subs acc = Except.ok (ps, total)) :
    ∀ p ∈ ps, 0 < p.r_value := by
  induction subs generalizing acc ps total with
  | nil =>
      simp only [collect_paths] at h
      have hps : ([] : List Path) = ps := congrArg Prod.fst (Except.ok.inj h)
      intro p hp
      rw [← hps] at hp
      simp at hp
  | cons sub rest ih =>
      cases ho : on_ok sub acc rest.isEmpty with
      | error e => simp [collect_paths, ho] at h
      | ok p0 =>
          simp only [collect_paths, ho] at h
          cases hc : collect_paths rest (acc + p0.area_percent) with
          | error e => rw [hc] at h; exact Except.noConfusion h
          | ok pt =>
              obtain ⟨ps2, tot2⟩ := pt
              rw [hc] at h
              have hps : p0 :: ps2 = ps := congrArg Prod.fst (Except.ok.inj h)
              intro q hq
              rw [← hps] at hq
              rcases List.mem_cons.mp hq with h1 | h2
              · exact h1 ▸ on_ok_pos _ _ _ _ ho
              · exact ih _ _ _ hc q h2

/-- The invariant of claim C7 for one layer: a strictly positive
`r_value` on a series layer, and on every path of a parallel layer. -/
def layerRPos : Layer → Prop
  | Layer.series r _ => 0 < r
  | Layer.parallel ps => ∀ p ∈ ps, 0 < p.r_value

/-- The invariant of claim C7 for a whole layer list. -/
def allRPos (layers : List Layer) : Prop := ∀ l ∈ layers, layerRPos l

/-- Claim C7: in every reachable state of the layer list, every stored
`r_value` of every series layer and of every parallel path is strictly
positive — the add operations reject non-positive typed R-values before
anything is stored and dictionary values are all positive, so
non-positive R-values are never present. -/
theorem C7_positive_r_invariant (layers : List Layer) (h : Reachable layers) :
    allRPos layers := by
  induction h with
  | init => intro l hl; simp at hl
  | addSeries typed sel ls hr ih =>
      intro l hl
      cases hs : add_series_layer typed sel with
      | added r m =>
          simp only [add_series_layer_state, hs] at hl
          rcases List.mem_append.mp hl with h1 | h2
          · exact ih l h1
          · have : l = Layer.series r m := by simpa using h2
            subst this
            exact add_series_layer_pos _ _ _ _ hs
      | rValueError =>
          simp only [add_series_layer_state, hs] at hl
          exact ih l hl
      | sourceError =>
          simp only [add_series_layer_state, hs] at hl
          exact ih l hl
  | addParallel subs ls hr ih =>
      intro l hl
      cases hcp : collect_paths subs 0 with
      | error e =>
          simp only [add_parallel_layer, hcp] at hl
          exact ih l hl
      | ok pt =>
          obtain ⟨paths, total⟩ := pt
          by_cases habs : |total - 100| > 1 / 1000000
          · simp only [add_parallel_layer, hcp] at hl
            rw [if_pos habs] at hl
            exact ih l hl
          · simp only [add_parallel_layer, hcp] at hl
            rw [if_neg habs] at hl
            rcases List.mem_append.mp hl with h1 | h2
            · exact ih l h1
            · have : l = Layer.parallel paths := by simpa using h2
              subst this
              exact collect_paths_pos _ _ _ _ hcp
  | deleteLast ls hr ih =>
      intro l hl
      cases ls with
      | nil => simp [delete_last_layer] at hl
      | cons a rest =>
          simp only [delete_last_layer] at hl
          exact ih l ((List.dropLast_prefix (a :: rest)).sublist.subset hl)
  | confirmDelete index response ls ls2 hr h2 ih =>
      cases response with
      | false =>
          simp only [confirm_delete_layer, if_neg (by simp : ¬ (false = true))] at h2
          have : ls = ls2 := Except.ok.inj h2
          exact this ▸ ih
      | true =>
          simp only [confirm_delete_layer, if_pos rfl] at h2
          by_cases hin : 0 ≤ index ∧ index < (ls.length : ℤ)
          · rw [if_pos hin] at h2
            have : ls.eraseIdx index.toNat = ls2 := Except.ok.inj h2
            intro l hl
            rw [← this] at hl
            exact ih l ((List.eraseIdx_sublist ls index.toNat).subset hl)
          · rw [if_neg hin] at h2
            by_cases hneg : -(ls.length : ℤ) ≤ index ∧ index < 0
            · rw [if_pos hneg] at h2
              have : ls.eraseIdx (index + (ls.length : ℤ)).toNat = ls2 := Except.ok.inj h2
              intro l hl
              rw [← this] at hl
              exact ih l ((List.eraseIdx_sublist ls _).subset hl)
            · rw [if_neg hneg] at h2
              exact Except.noConfusion h2

/-- Claim C7 witness: the state reached from startup by one series add
with typed value 13 satisfies the invariant. -/
theorem C7_positive_r_invariant_applied :
    allRPos (add_series_layer_state (TypedField.value 13) noneLabel []) :=
  C7_positive_r_invariant _
    (Reachable.addSeries (TypedField.value 13) noneLabel [] Reachable.init)

/-- Claim C6 counterexample: on the last path with the remaining area
already at 0 (reachable: a non-last path may take 100%), the submission
v = 0 satisfies |v - remaining| <= 1e-6 and carries a valid R-value
source, yet it is rejected — and with the positivity message, not a
report of the remaining area. -/
theorem C6_tolerance_counterexample :
    resolve_r (TypedField.value 13) noneLabel = Except.ok (13, customLabel) ∧
    |(0 : ℚ) - (100 - 100)| ≤ 1 / 1000000 ∧
    on_ok ⟨TypedField.value 13, noneLabel, TypedField.value 0⟩ 100 true =
      Except.error PathError.areaPositiveError := by
  refine ⟨by norm_num [resolve_r], by norm_num, ?_⟩
  norm_num [on_ok, resolve_r]

theorem on_ok_last_path_iff (sub : PathSubmission) (used rv v : ℚ) (mat : String)
    (hr : resolve_r sub.typed_r sub.sel_mat = Except.ok (rv, mat))
    (ha : sub.area = TypedField.value v) :
    (on_ok sub used true = Except.ok ⟨rv, v, mat⟩ ↔
      0 < v ∧ |v - (100 - used)| ≤ 1 / 1000000) ∧
    (0 < v → |v - (100 - used)| > 1 / 1000000 →
      on_ok sub used true = Except.error (PathError.lastAreaError (100 - used))) ∧
    (v ≤ 0 → on_ok sub used true = Except.error PathError.areaPositiveError) := by
  simp only [on_ok, hr, ha]
  by_cases hv : v ≤ 0
  · rw [if_pos hv]
    refine ⟨⟨fun h => absurd h (by simp), fun h => absurd hv (not_le.mpr h.1)⟩,
      fun h1 _ => absurd hv (not_le.mpr h1), fun _ => rfl⟩
  · rw [if_neg hv, if_neg (by simp : ¬ (true = false))]
    by_cases habs : |v - (100 - used)| > 1 / 1000000
    · rw [if_pos habs]
      refine ⟨⟨fun h => absurd h (by simp), fun h => absurd habs (not_lt.mpr h.2)⟩,
        fun _ _ => rfl, fun h => absurd h hv⟩
    · rw [if_neg habs]
      exact ⟨⟨fun _ => ⟨not_le.mp hv, not_lt.mp habs⟩, fun _ => rfl⟩,
        fun _ h2 => absurd h2 habs, fun h => absurd h hv⟩

/-- Claim C6 amended: on the last path, a submission with a valid
R-value source and parsed area v is accepted iff v is positive *and*
|v - remainingArea| <= 1e-6; a positive v outside the tolerance is
rejected with the exact remaining area reported back, while a
non-positive v is rejected with the positivity message instead. -/
theorem C6_amended_last_path_rule (sub : PathSubmission) (used rv v : ℚ) (mat : String)
    (hr : resolve_r sub.typed_r sub.sel_mat = Except.ok (rv, mat))
    (ha : sub.area = TypedField.value v) :
    (on_ok sub used true = Except.ok ⟨rv, v, mat⟩ ↔
      0 < v ∧ |v - (100 - used)| ≤ 1 / 1000000) ∧
    (0 < v → |v - (100 - used)| > 1 / 1000000 →
      on_ok sub used true = Except.error (PathError.lastAreaError (100 - used))) ∧
    (v ≤ 0 → on_ok sub used true = Except.error PathError.areaPositiveError) :=
  on_ok_last_path_iff sub used rv v mat hr ha

/-- Claim C6 amended witness: the spec scenario — first two paths sum to
90%, the last path submitted as 5% is rejected with the remaining 10%
reported back. -/
theorem C6_amended_last_path_rule_applied :
    on_ok ⟨TypedField.value 13, noneLabel, TypedField.value 5⟩ 90 true =
      Except.error (PathError.lastAreaError 10) := by
  have h := (C6_amended_last_path_rule ⟨TypedField.value 13, noneLabel, TypedField.value 5⟩
    90 13 5 customLabel (by norm_num [resolve_r]) rfl).2.1 (by norm_num) (by norm_num)
  norm_num at h
  exact h

/-- Claim C8 counterexample: deleting at index 1 in a one-layer list
performs no existence check — the model of `del layers[index]` raises an
uncaught `IndexError` rather than returning a `NotFoundError` result
(the empty-list half of the claim does hold for `delete_last_layer`). -/
theorem C8_remove_counterexample :
    confirm_delete_layer 1 true [Layer.series 13 customLabel] = Except.error () ∧
    delete_last_layer [] = ([], false) := by
  constructor
  · norm_num [confirm_delete_layer]
  · rfl

/-- Claim C8 amended: `confirm_delete_layer` performs no existence
check — a confirmed delete at any index at or beyond the list length
raises an uncaught `IndexError` (no `NotFoundError` result exists),
while `delete_last_layer` on an empty sequence is a no-op that reports
the "No layers to delete." condition. -/
theorem C8_amended_remove_behavior (index : ℤ) (layers : List Layer)
    (h : (layers.length : ℤ) ≤ index) :
    confirm_delete_layer index true layers = Except.error () ∧
    delete_last_layer [] = ([], false) := by
  have h1 : ¬ (0 ≤ index ∧ index < (layers.length : ℤ)) := by omega
  have h2 : ¬ (-(layers.length : ℤ) ≤ index ∧ index < 0) := by omega
  constructor
  · simp only [confirm_delete_layer]
    rw [if_pos trivial, if_neg h1, if_neg h2]
  · rfl

/-- Claim C8 amended witness: index 1 on a one-layer list. -/
theorem C8_amended_remove_behavior_applied :
    confirm_delete_layer 1 true [Layer.series 13 customLabel] = Except.error () ∧
    delete_last_layer ([] : List Layer) = ([], false) :=
  C8_amended_remove_behavior 1 [Layer.series 13 customLabel] (by norm_num)

/-- Claim C10: a non-last path may take exactly the whole remaining area
(the bound is ≤, not strict); on the last path after the first paths
already total 100%, a value v is accepted iff 0 < v ≤ 1e-6; and a
committed parallel layer's area percentages can therefore sum to
100 + 1e-6. -/
theorem C10_boundary_acceptance :
    (∀ rv used : ℚ, 0 < rv → 0 < 100 - used →
      on_ok ⟨TypedField.value rv, noneLabel, TypedField.value (100 - used)⟩ used false =
        Except.ok ⟨rv, 100 - used, customLabel⟩) ∧
    (∀ rv v : ℚ, 0 < rv →
      (on_ok ⟨TypedField.value rv, noneLabel, TypedField.value v⟩ 100 true =
          Except.ok ⟨rv, v, customLabel⟩ ↔ 0 < v ∧ v ≤ 1 / 1000000)) ∧
    (add_parallel_layer
        [⟨TypedField.value 13, noneLabel, TypedField.value 100⟩,
          ⟨TypedField.value 13, noneLabel, TypedField.value (1 / 1000000)⟩] []).2 =
      [Layer.parallel [⟨13, 100, customLabel⟩, ⟨13, 1 / 1000000, customLabel⟩]] ∧
    ([(⟨13, 100, customLabel⟩ : Path), ⟨13, 1 / 1000000, customLabel⟩].map
        Path.area_percent).sum = 100 + 1 / 1000000 := by
  refine ⟨?_, ?_, ?_, ?_⟩
  · intro rv used hrv harea
    simp only [on_ok, resolve_r]
    rw [if_neg (not_le.mpr hrv)]
    dsimp only
    rw [if_neg (not_le.mpr harea), if_pos trivial, if_neg (lt_irrefl (100 - used))]
  · intro rv v hrv
    have h := on_ok_last_path_iff
      ⟨TypedField.value rv, noneLabel, TypedField.value v⟩ 100 rv v customLabel
      (by simp [resolve_r, not_le.mpr hrv]) rfl
    rw [h.1]
    constructor
    · rintro ⟨h1, h2⟩
      refine ⟨h1, ?_⟩
      have habs : |v - (100 - 100)| = v := by
        rw [show (100 : ℚ) - 100 = 0 by norm_num, sub_zero, abs_of_pos h1]
      rw [habs] at h2
      exact h2
    · rintro ⟨h1, h2⟩
      refine ⟨h1, ?_⟩
      rw [show (100 : ℚ) - 100 = 0 by norm_num, sub_zero, abs_of_pos h1]
      exact h2
  · have habs : |(1 : ℚ) / 1000000| = 1 / 1000000 := abs_of_pos (by norm_num)
    norm_num [add_parallel_layer, collect_paths, on_ok, resolve_r, habs]
  · norm_num

/-- Claim C10 witness: a non-last path taking the full remaining 40%
after 60% is used is accepted. -/
theorem C10_boundary_acceptance_applied :
    on_ok ⟨TypedField.value 13, noneLabel, TypedField.value 40⟩ 60 false =
      Except.ok ⟨13, 40, customLabel⟩ := by
  have h := C10_boundary_acceptance.1 13 60 (by norm_num) (by norm_num)
  norm_num at h
  exact h

end HeatFlow
